import Mathlib

/-!
# Verification of the MicroDrop user-prompt plugin step handler

Shallow embedding of `microdrop.user-prompt-plugin/__init__.py`
(class `UserPromptPlugin`), covering the two behaviour-bearing callbacks:

* `on_step_run` — the step-execution handshake handler;
* `on_step_options_menu__activate` — the options-edit flow.

External collaborators (the GTK dialogs, `json.loads`, and
`pygtkhelpers.schema.get_fields_frame` / `schema_dialog`) are modelled as
oracles supplied in an environment record; the plugin code itself is
translated statement by statement into pure Lean functions that produce a
trace of observable events (log records, signal emissions, dialog
construction and blocking runs, step-option reads and writes).
-/

namespace UserPromptPlugin

/-- The per-step configuration record `{message, schema}` (the plugin's
`StepFields` form: both fields are strings defaulting to `''`). -/
structure StepOptions where
  message : String
  schema : String
  deriving DecidableEq, Repr

/-- Log severities used by the plugin (`logger.info`, `logger.warning`,
`logger.error`). -/
inductive LogLevel
  | info
  | warning
  | error
  deriving DecidableEq, Repr

/-- The Python exception taxonomy relevant to the `try`/`except` dispatch in
`on_step_run`: `except ValueError` catches `ValueError` (and its subclasses,
which include JSON decode errors), `except Exception` catches every other
ordinary exception. -/
inductive ExnType
  | valueError
  | otherError
  deriving DecidableEq, Repr

/-- A Python exception: its dispatch class and its message. -/
structure PyExn where
  type : ExnType
  msg : String
  deriving DecidableEq, Repr

/-- The exception raised by Python 2's `json.loads` on malformed input: a
`ValueError`. -/
def jsonDecodeError : PyExn :=
  PyExn.mk ExnType.valueError "No JSON object could be decoded"

/-- An opaque stand-in for the Python object returned by a successful
`json.loads` call; none of the plugin's own logic inspects it. -/
inductive JsonValue
  | mk : Nat → JsonValue
  deriving DecidableEq, Repr

/-- The value mapping collected from a structured prompt
(field name to entered value). -/
abbrev Values := List (String × String)

/-- Result of the blocking `dialog.run()` call on the message-mode GTK
dialog: `accept` is `gtk.RESPONSE_ACCEPT`; `other c` is any other response
code (cancel button, window close, ...). -/
inductive MessageDialogResult
  | accept
  | other : Int → MessageDialogResult
  deriving DecidableEq, Repr

/-- Result of the blocking `pg.schema.schema_dialog(...)` call: either the
collected values, or an exception raised out of the call. -/
inductive SchemaDialogResult
  | values : Values → SchemaDialogResult
  | raises : PyExn → SchemaDialogResult
  deriving DecidableEq, Repr

/-- Environment of external behaviour for one `on_step_run` invocation:
the result of `json.loads` on each string, the message-mode dialog response,
and the structured-dialog outcome. -/
structure RunEnv where
  jsonLoads : String → Option JsonValue
  messageDialog : MessageDialogResult
  schemaDialog : SchemaDialogResult

/-- Environment of external behaviour for one options-edit invocation:
the `(ok, values)` result of `FormViewDialog.run` (`none` when not ok),
`json.loads`, and `pg.schema.get_fields_frame` (which may raise). -/
structure EditEnv where
  dialogResult : Option StepOptions
  jsonLoads : String → Option JsonValue
  getFieldsFrame : JsonValue → Except PyExn Unit

/-- Observable events produced by the plugin's callbacks. -/
inductive Event
  | log : LogLevel → String → Event
  | getStepOptions : Event
  | emitStepComplete : String → Option String → Event
  | stepPromptAccepted : Values → Event
  | setStepValues : StepOptions → Event
  | dialogCreated : String → Event
  | messageDialogRun : String → Event
  | schemaDialogRun : String → Event
  | editDialogRun : Event
  deriving DecidableEq, Repr

/-- `'Step {}'.format(app.protocol.current_step_number + 1)` for zero-based
step index `n`. -/
def stepTitle (n : Nat) : String := "Step " ++ toString (n + 1)

/-- The body of the `try` block of `on_step_run` (lines 153–186 of the
source), given the already-built base title index `n`, the step's `message`
and `schema`, and the environment.  Returns the events produced inside the
block paired with either the accepted `values` or the exception that escapes
the block:

* `schema` empty (Python-falsy): build the message-mode `gtk.Dialog`, run it;
  any response other than `RESPONSE_ACCEPT` raises
  `ValueError('Protocol stop requested.')`, otherwise `values = {}`;
* `schema` non-empty: extend the title with the message when present,
  `json.loads(schema)` (malformed input raises a `ValueError`), then run
  `pg.schema.schema_dialog`, which returns values or raises. -/
def runTryBody (n : Nat) (message schema : String) (env : RunEnv) :
    List Event × Except PyExn Values :=
  if schema = "" then
    let evs := [Event.dialogCreated (stepTitle n),
                Event.messageDialogRun (stepTitle n)]
    match env.messageDialog with
    | MessageDialogResult.accept => (evs, Except.ok [])
    | MessageDialogResult.other _ =>
        (evs, Except.error (PyExn.mk ExnType.valueError "Protocol stop requested."))
  else
    let title := if message = "" then stepTitle n
                 else "[" ++ stepTitle n ++ "] " ++ message
    match env.jsonLoads schema with
    | none => ([], Except.error jsonDecodeError)
    | some _ =>
        match env.schemaDialog with
        | SchemaDialogResult.values vs => ([Event.schemaDialogRun title], Except.ok vs)
        | SchemaDialogResult.raises e => ([Event.schemaDialogRun title], Except.error e)

/-- `UserPromptPlugin.on_step_run` (source lines 125–199) for plugin name
`pluginName` and current zero-based step index `n`:

* log the entry at info level and read the step options;
* if both `message` and `schema` are empty strings (Python-falsy), emit
  `on_step_complete(name, None)` immediately;
* otherwise run the `try` body (`runTryBody`); on normal return, emit the
  `step-prompt-accepted` signal (whose connected handler logs at info
  level), then emit `on_step_complete(name, None)`; on `ValueError`, log
  `'Protocol stopped.'` at warning level and emit
  `on_step_complete(name, 'Fail')`; on any other exception, log
  `'Protocol stopped.'` at error level and emit
  `on_step_complete(name, 'Fail')`. -/
def on_step_run (pluginName : String) (n : Nat) (opts : StepOptions)
    (env : RunEnv) : List Event :=
  let entry := [Event.log LogLevel.info
                  ("[UserPromptPlugin] on_step_run(): step #" ++ toString n),
                Event.getStepOptions]
  if opts.message = "" ∧ opts.schema = "" then
    entry ++ [Event.emitStepComplete pluginName none]
  else
    let res := runTryBody n opts.message opts.schema env
    entry ++ res.1 ++
      (match res.2 with
       | Except.ok vs =>
           [Event.stepPromptAccepted vs,
            Event.log LogLevel.info "Step prompt accepted",
            Event.emitStepComplete pluginName none]
       | Except.error e =>
           match e.type with
           | ExnType.valueError =>
               [Event.log LogLevel.warning "Protocol stopped.",
                Event.emitStepComplete pluginName (some "Fail")]
           | ExnType.otherError =>
               [Event.log LogLevel.error "Protocol stopped.",
                Event.emitStepComplete pluginName (some "Fail")])

/-- The character class of Python's `str.strip()` with no argument:
ASCII whitespace (space, tab, newline, carriage return, vertical tab,
form feed). -/
def pyIsSpace (c : Char) : Bool :=
  c = ' ' ∨ c = '\t' ∨ c = '\n' ∨ c = '\r' ∨ c = '\x0b' ∨ c = '\x0c'

/-- Python's `str.strip()`: remove leading and trailing whitespace. -/
def pyStrip (s : String) : String :=
  String.mk (((s.data.dropWhile pyIsSpace).reverse.dropWhile pyIsSpace).reverse)

/-- The message of `_L().error('Invalid schema `%s`: `%s`', ...)` in the
options-edit flow. -/
def invalidSchemaMsg (schema : String) (e : PyExn) : String :=
  "Invalid schema " ++ schema ++ ": " ++ e.msg

/-- `UserPromptPlugin.on_step_options_menu__activate` (source lines
100–122): read the step options to pre-populate the edit dialog, run the
`FormViewDialog`; if confirmed (`ok`), and `values['schema'].strip()` is
truthy, validate by `json.loads` then `pg.schema.get_fields_frame`; on any
exception, log it at error level and normalize `values['schema']` to the
empty string; finally `set_step_values(values)`. -/
def on_step_options_menu__activate (env : EditEnv) : List Event :=
  Event.getStepOptions :: Event.editDialogRun ::
    match env.dialogResult with
    | none => []
    | some values =>
        if pyStrip values.schema = "" then
          [Event.setStepValues values]
        else
          match env.jsonLoads values.schema with
          | none =>
              [Event.log LogLevel.error (invalidSchemaMsg values.schema jsonDecodeError),
               Event.setStepValues { values with schema := "" }]
          | some j =>
              match env.getFieldsFrame j with
              | Except.ok _ => [Event.setStepValues values]
              | Except.error e =>
                  [Event.log LogLevel.error (invalidSchemaMsg values.schema e),
                   Event.setStepValues { values with schema := "" }]

/-- Whether an event is an `on_step_complete` emission. -/
def isEmitStepComplete : Event → Bool
  | Event.emitStepComplete _ _ => true
  | _ => false

/-- Number of `on_step_complete` emissions in a trace. -/
def countEmits (t : List Event) : Nat := t.countP isEmitStepComplete

/-- Whether an event is a `set_step_values` write. -/
def isSetStepValues : Event → Bool
  | Event.setStepValues _ => true
  | _ => false

/-- Whether a trace contains an error-level log record. -/
def hasErrorLog (t : List Event) : Bool :=
  t.any fun e => match e with
    | Event.log LogLevel.error _ => true
    | _ => false

/-- An `on_step_complete` emission carries outcome `None` (success) or
`'Fail'` — never any other string (in particular never `'Retry'`). -/
def outcomeOk : Event → Bool
  | Event.emitStepComplete _ o => o = none ∨ o = some "Fail"
  | _ => true

/-- A run environment in which the user cancels the prompt.  In message mode
(empty `schema`) cancellation is any `dialog.run()` response other than
`gtk.RESPONSE_ACCEPT`.  In structured mode the blocking renderer call
(`pg.schema.schema_dialog`) is external to this module; modelled from the
spec: §4.3 "Cancel yields `Cancelled`" together with §4.4's mapping of
`Cancelled` onto the warning-level handler, i.e. on user cancellation the
renderer raises a `ValueError` (and `json.loads` of the schema must succeed
for the renderer to be reached at all). -/
def cancelsPrompt (opts : StepOptions) (env : RunEnv) : Prop :=
  ¬(opts.message = "" ∧ opts.schema = "") ∧
    (if opts.schema = "" then ∃ c, env.messageDialog = MessageDialogResult.other c
     else (∃ j, env.jsonLoads opts.schema = some j) ∧
       ∃ m, env.schemaDialog = SchemaDialogResult.raises (PyExn.mk ExnType.valueError m))

/-- The prompt is shown and accepted with value mapping `vs`: the step is
not on the fast path; in message mode the dialog response is
`gtk.RESPONSE_ACCEPT` and `vs = {}` (no values are collected); in structured
mode the schema decodes and the renderer returns `vs`. -/
def promptAccepted (opts : StepOptions) (env : RunEnv) (vs : Values) : Prop :=
  ¬(opts.message = "" ∧ opts.schema = "") ∧
    (if opts.schema = "" then
       env.messageDialog = MessageDialogResult.accept ∧ vs = []
     else (∃ j, env.jsonLoads opts.schema = some j) ∧
       env.schemaDialog = SchemaDialogResult.values vs)

/-- Auxiliary: the `try` body never emits `on_step_complete` itself. -/
theorem runTryBody_no_emit (n : Nat) (m s : String) (env : RunEnv) :
    countEmits (runTryBody n m s env).1 = 0 := by
  unfold runTryBody
  by_cases hs : s = "" <;> simp only [hs, if_true, if_false, reduceIte]
  · cases env.messageDialog <;>
      simp [countEmits, isEmitStepComplete, List.countP_cons, List.countP_nil]
  · cases hj : env.jsonLoads s <;> cases env.schemaDialog <;>
      simp [hj, countEmits, isEmitStepComplete, List.countP_cons, List.countP_nil]

/-- Auxiliary: the `try` body never writes step options. -/
theorem runTryBody_no_write (n : Nat) (m s : String) (env : RunEnv) (o : StepOptions) :
    Event.setStepValues o ∉ (runTryBody n m s env).1 := by
  unfold runTryBody
  by_cases hs : s = "" <;> simp only [hs, if_true, if_false, reduceIte]
  · cases env.messageDialog <;> simp
  · cases hj : env.jsonLoads s <;> cases env.schemaDialog <;> simp [hj]

/-- Auxiliary: every event produced inside the `try` body satisfies
`outcomeOk` (in particular it is not an emission at all). -/
theorem runTryBody_all_outcomeOk (n : Nat) (m s : String) (env : RunEnv) :
    (runTryBody n m s env).1.all outcomeOk = true := by
  unfold runTryBody
  by_cases hs : s = "" <;> simp only [hs, if_true, if_false, reduceIte]
  · cases env.messageDialog <;> simp [outcomeOk]
  · cases hj : env.jsonLoads s <;> cases env.schemaDialog <;> simp [hj, outcomeOk]

/-- C1: every invocation of `on_step_run`, over every configuration and
every external behaviour (accept, cancel, fault, decode failure), produces
exactly one `on_step_complete` emission — never zero, never more than one. -/
theorem on_step_run_emits_exactly_once (p : String) (n : Nat)
    (opts : StepOptions) (env : RunEnv) :
    countEmits (on_step_run p n opts env) = 1 := by
  unfold on_step_run
  split
  · simp [countEmits, isEmitStepComplete, List.countP_cons, List.countP_nil]
  · have h1 := runTryBody_no_emit n opts.message opts.schema env
    unfold countEmits at h1 ⊢
    rw [List.countP_append, List.countP_append, h1]
    rcases hres : (runTryBody n opts.message opts.schema env).2 with e | vs
    · obtain ⟨ty, m⟩ := e
      cases ty <;> simp [hres, isEmitStepComplete, List.countP_cons, List.countP_nil]
    · simp [hres, isEmitStepComplete, List.countP_cons, List.countP_nil]

/-- C7: every `on_step_complete` emission of `on_step_run` carries outcome
`None` (success) or `'Fail'`; no branch ever emits `'Retry'` (nor any other
string). -/
theorem on_step_run_outcomes (p : String) (n : Nat)
    (opts : StepOptions) (env : RunEnv) :
    (on_step_run p n opts env).all outcomeOk = true := by
  unfold on_step_run
  split
  · simp [outcomeOk]
  · rw [List.all_append, List.all_append, runTryBody_all_outcomeOk]
    rcases hres : (runTryBody n opts.message opts.schema env).2 with e | vs
    · obtain ⟨ty, m⟩ := e
      cases ty <;> simp [hres, outcomeOk]
    · simp [hres, outcomeOk]

/-- C9: `on_step_run` reads the step options (a `get_step_options` read is
in every trace) and never writes them back — no branch produces a
`set_step_values` event, so the persisted `{message, schema}` record is left
unchanged by the run path. -/
theorem on_step_run_frame (p : String) (n : Nat)
    (opts : StepOptions) (env : RunEnv) :
    Event.getStepOptions ∈ on_step_run p n opts env ∧
      ∀ o : StepOptions, Event.setStepValues o ∉ on_step_run p n opts env := by
  unfold on_step_run
  split
  · simp
  · constructor
    · simp
    · intro o
      have h1 := runTryBody_no_write n opts.message opts.schema env o
      rcases hres : (runTryBody n opts.message opts.schema env).2 with e | vs
      · obtain ⟨ty, m⟩ := e
        cases ty <;> simp [hres, h1]
      · simp [hres, h1]

/-- Witness for `on_step_run_frame` at a concrete input. -/
theorem on_step_run_frame_witness :
    Event.getStepOptions ∈
      on_step_run "user_prompt_plugin" 0 (StepOptions.mk "" "")
        (RunEnv.mk (fun _ => none) MessageDialogResult.accept
          (SchemaDialogResult.values [])) ∧
    Event.setStepValues (StepOptions.mk "" "") ∉
      on_step_run "user_prompt_plugin" 0 (StepOptions.mk "" "")
        (RunEnv.mk (fun _ => none) MessageDialogResult.accept
          (SchemaDialogResult.values [])) :=
  ⟨(on_step_run_frame "user_prompt_plugin" 0 (StepOptions.mk "" "")
      (RunEnv.mk (fun _ => none) MessageDialogResult.accept
        (SchemaDialogResult.values []))).1,
   (on_step_run_frame "user_prompt_plugin" 0 (StepOptions.mk "" "")
      (RunEnv.mk (fun _ => none) MessageDialogResult.accept
        (SchemaDialogResult.values []))).2 (StepOptions.mk "" "")⟩

/-- C2: when both `message` and `schema` are empty strings, `on_step_run`
emits `on_step_complete` with outcome `None` (success) immediately: the
whole trace is the entry log, the options read, and the emission — no
dialog is constructed and no blocking call is made. -/
theorem fast_path_immediate_success (p : String) (n : Nat)
    (opts : StepOptions) (env : RunEnv)
    (hm : opts.message = "") (hs : opts.schema = "") :
    on_step_run p n opts env =
      [Event.log LogLevel.info
         ("[UserPromptPlugin] on_step_run(): step #" ++ toString n),
       Event.getStepOptions,
       Event.emitStepComplete p none] := by
  unfold on_step_run
  rw [if_pos ⟨hm, hs⟩]
  rfl

/-- Witness for `fast_path_immediate_success` at a concrete input. -/
theorem fast_path_immediate_success_witness :
    (StepOptions.mk "" "").message = "" ∧ (StepOptions.mk "" "").schema = "" ∧
    on_step_run "user_prompt_plugin" 0 (StepOptions.mk "" "")
        (RunEnv.mk (fun _ => none) MessageDialogResult.accept
          (SchemaDialogResult.values [])) =
      [Event.log LogLevel.info "[UserPromptPlugin] on_step_run(): step #0",
       Event.getStepOptions,
       Event.emitStepComplete "user_prompt_plugin" none] :=
  ⟨rfl, rfl,
   fast_path_immediate_success "user_prompt_plugin" 0 (StepOptions.mk "" "")
     (RunEnv.mk (fun _ => none) MessageDialogResult.accept
       (SchemaDialogResult.values [])) rfl rfl⟩

/-- C3 counterexample: on a malformed schema (`json.loads` fails) the run
path emits `'Fail'` but logs at warning level only — there is no
error-level log record in the trace, refuting the claim that run-time
schema decode failures are logged at error level. -/
theorem decode_error_level_counterexample :
    Event.emitStepComplete "user_prompt_plugin" (some "Fail") ∈
      on_step_run "user_prompt_plugin" 0 (StepOptions.mk "" "\x7bnot json")
        (RunEnv.mk (fun _ => none) MessageDialogResult.accept
          (SchemaDialogResult.values [])) ∧
    Event.log LogLevel.warning "Protocol stopped." ∈
      on_step_run "user_prompt_plugin" 0 (StepOptions.mk "" "\x7bnot json")
        (RunEnv.mk (fun _ => none) MessageDialogResult.accept
          (SchemaDialogResult.values [])) ∧
    hasErrorLog
      (on_step_run "user_prompt_plugin" 0 (StepOptions.mk "" "\x7bnot json")
        (RunEnv.mk (fun _ => none) MessageDialogResult.accept
          (SchemaDialogResult.values []))) = false := by
  decide

/-- C3 (amended): a non-empty schema whose `json.loads` fails at run time
makes `on_step_run` emit `on_step_complete` with `'Fail'`, but the failure
is logged at warning level — the decode error is a `ValueError` and is
caught by the cancellation handler — and the trace contains no error-level
log record. -/
theorem decode_error_fails_with_warning (p : String) (n : Nat)
    (opts : StepOptions) (env : RunEnv)
    (hs : opts.schema ≠ "") (hj : env.jsonLoads opts.schema = none) :
    on_step_run p n opts env =
      [Event.log LogLevel.info
         ("[UserPromptPlugin] on_step_run(): step #" ++ toString n),
       Event.getStepOptions,
       Event.log LogLevel.warning "Protocol stopped.",
       Event.emitStepComplete p (some "Fail")] ∧
    hasErrorLog (on_step_run p n opts env) = false := by
  have hcond : ¬(opts.message = "" ∧ opts.schema = "") := fun h => hs h.2
  have htrace : on_step_run p n opts env =
      [Event.log LogLevel.info
         ("[UserPromptPlugin] on_step_run(): step #" ++ toString n),
       Event.getStepOptions,
       Event.log LogLevel.warning "Protocol stopped.",
       Event.emitStepComplete p (some "Fail")] := by
    unfold on_step_run runTryBody
    simp [hcond, hs, hj, jsonDecodeError]
  exact ⟨htrace, by rw [htrace]; simp [hasErrorLog]⟩

/-- Witness for `decode_error_fails_with_warning` at a concrete input. -/
theorem decode_error_fails_with_warning_witness :
    ("\x7bnot json" : String) ≠ "" ∧
    (on_step_run "user_prompt_plugin" 2 (StepOptions.mk "" "\x7bnot json")
        (RunEnv.mk (fun _ => none) MessageDialogResult.accept
          (SchemaDialogResult.values [])) =
      [Event.log LogLevel.info "[UserPromptPlugin] on_step_run(): step #2",
       Event.getStepOptions,
       Event.log LogLevel.warning "Protocol stopped.",
       Event.emitStepComplete "user_prompt_plugin" (some "Fail")] ∧
     hasErrorLog
       (on_step_run "user_prompt_plugin" 2 (StepOptions.mk "" "\x7bnot json")
         (RunEnv.mk (fun _ => none) MessageDialogResult.accept
           (SchemaDialogResult.values []))) = false) :=
  ⟨by decide,
   decode_error_fails_with_warning "user_prompt_plugin" 2
     (StepOptions.mk "" "\x7bnot json")
     (RunEnv.mk (fun _ => none) MessageDialogResult.accept
       (SchemaDialogResult.values []))
     (by decide) rfl⟩

/-- C4: whenever the user cancels the prompt (message mode or structured
mode), `on_step_run` ends by logging `'Protocol stopped.'` at warning level
and emitting `on_step_complete` with `'Fail'`; the trace contains no
error-level record; and in message mode the exception escaping the `try`
body is `ValueError('Protocol stop requested.')`, i.e. the reason is an
operator-requested protocol stop. -/
theorem cancel_fails_with_warning (p : String) (n : Nat)
    (opts : StepOptions) (env : RunEnv) (h : cancelsPrompt opts env) :
    (∃ t, on_step_run p n opts env =
       t ++ [Event.log LogLevel.warning "Protocol stopped.",
             Event.emitStepComplete p (some "Fail")]) ∧
    hasErrorLog (on_step_run p n opts env) = false ∧
    (opts.schema = "" →
      (runTryBody n opts.message opts.schema env).2 =
        Except.error (PyExn.mk ExnType.valueError "Protocol stop requested.")) := by
  obtain ⟨hne, hcase⟩ := h
  by_cases hs : opts.schema = ""
  · rw [if_pos hs] at hcase
    obtain ⟨c, hc⟩ := hcase
    have hm : opts.message ≠ "" := fun h => hne ⟨h, hs⟩
    have htrace : on_step_run p n opts env =
        [Event.log LogLevel.info
           ("[UserPromptPlugin] on_step_run(): step #" ++ toString n),
         Event.getStepOptions,
         Event.dialogCreated (stepTitle n),
         Event.messageDialogRun (stepTitle n),
         Event.log LogLevel.warning "Protocol stopped.",
         Event.emitStepComplete p (some "Fail")] := by
      unfold on_step_run runTryBody
      simp [hm, hs, hc]
    refine ⟨⟨[Event.log LogLevel.info
           ("[UserPromptPlugin] on_step_run(): step #" ++ toString n),
         Event.getStepOptions,
         Event.dialogCreated (stepTitle n),
         Event.messageDialogRun (stepTitle n)], by rw [htrace]; rfl⟩,
      by rw [htrace]; simp [hasErrorLog], ?_⟩
    intro _
    unfold runTryBody
    simp [hs, hc]
  · rw [if_neg hs] at hcase
    obtain ⟨⟨j, hj⟩, m, hsd⟩ := hcase
    have htrace : on_step_run p n opts env =
        [Event.log LogLevel.info
           ("[UserPromptPlugin] on_step_run(): step #" ++ toString n),
         Event.getStepOptions,
         Event.schemaDialogRun
           (if opts.message = "" then stepTitle n
            else "[" ++ stepTitle n ++ "] " ++ opts.message),
         Event.log LogLevel.warning "Protocol stopped.",
         Event.emitStepComplete p (some "Fail")] := by
      unfold on_step_run runTryBody
      simp [hne, hs, hj, hsd]
    refine ⟨⟨[Event.log LogLevel.info
           ("[UserPromptPlugin] on_step_run(): step #" ++ toString n),
         Event.getStepOptions,
         Event.schemaDialogRun
           (if opts.message = "" then stepTitle n
            else "[" ++ stepTitle n ++ "] " ++ opts.message)],
        by rw [htrace]; rfl⟩,
      by rw [htrace]; simp [hasErrorLog], fun hs2 => absurd hs2 hs⟩

/-- Witness for `cancel_fails_with_warning`: a message-mode prompt
(`message = "Insert electrode"`, empty schema) cancelled with response
code 0. -/
theorem cancel_fails_with_warning_witness :
    cancelsPrompt (StepOptions.mk "Insert electrode" "")
      (RunEnv.mk (fun _ => none) (MessageDialogResult.other 0)
        (SchemaDialogResult.values [])) ∧
    ((∃ t, on_step_run "user_prompt_plugin" 0
         (StepOptions.mk "Insert electrode" "")
         (RunEnv.mk (fun _ => none) (MessageDialogResult.other 0)
           (SchemaDialogResult.values [])) =
       t ++ [Event.log LogLevel.warning "Protocol stopped.",
             Event.emitStepComplete "user_prompt_plugin" (some "Fail")]) ∧
     hasErrorLog (on_step_run "user_prompt_plugin" 0
         (StepOptions.mk "Insert electrode" "")
         (RunEnv.mk (fun _ => none) (MessageDialogResult.other 0)
           (SchemaDialogResult.values []))) = false ∧
     ((StepOptions.mk "Insert electrode" "").schema = "" →
       (runTryBody 0 (StepOptions.mk "Insert electrode" "").message
           (StepOptions.mk "Insert electrode" "").schema
           (RunEnv.mk (fun _ => none) (MessageDialogResult.other 0)
             (SchemaDialogResult.values []))).2 =
         Except.error (PyExn.mk ExnType.valueError "Protocol stop requested."))) := by
  have hc : cancelsPrompt (StepOptions.mk "Insert electrode" "")
      (RunEnv.mk (fun _ => none) (MessageDialogResult.other 0)
        (SchemaDialogResult.values [])) := by
    refine ⟨by decide, ?_⟩
    simp only [reduceIte]
    exact ⟨0, rfl⟩
  exact ⟨hc, cancel_fails_with_warning "user_prompt_plugin" 0
    (StepOptions.mk "Insert electrode" "")
    (RunEnv.mk (fun _ => none) (MessageDialogResult.other 0)
      (SchemaDialogResult.values [])) hc⟩

/-- C5 counterexample: at step index 0 with message `"m"` and a non-empty
schema, the title handed to the structured prompt is `"[Step 1] m"` (with a
leading opening bracket), not `"Step 1] m"` as the claim states. -/
theorem dialog_title_counterexample :
    Event.schemaDialogRun "[Step 1] m" ∈
      on_step_run "user_prompt_plugin" 0 (StepOptions.mk "m" "\x7b\x7d")
        (RunEnv.mk (fun _ => some (JsonValue.mk 0)) MessageDialogResult.accept
          (SchemaDialogResult.values [])) ∧
    Event.schemaDialogRun "Step 1] m" ∉
      on_step_run "user_prompt_plugin" 0 (StepOptions.mk "m" "\x7b\x7d")
        (RunEnv.mk (fun _ => some (JsonValue.mk 0)) MessageDialogResult.accept
          (SchemaDialogResult.values [])) := by
  decide

/-- C5 (amended): for zero-based step index `n`, the dialog title built by
`on_step_run` is `"Step {n+1}"` when no message accompanies the schema (and
also for the message-mode dialog), and `"[Step {n+1}] {message}"` — with the
step part bracketed — when a non-empty message accompanies a non-empty
schema. -/
theorem dialog_title (p : String) (n : Nat) (opts : StepOptions)
    (env : RunEnv) :
    (∀ j, env.jsonLoads opts.schema = some j → opts.schema ≠ "" →
      Event.schemaDialogRun
        (if opts.message = "" then stepTitle n
         else "[" ++ stepTitle n ++ "] " ++ opts.message) ∈
        on_step_run p n opts env) ∧
    (opts.schema = "" → opts.message ≠ "" →
      Event.messageDialogRun (stepTitle n) ∈ on_step_run p n opts env) := by
  constructor
  · intro j hj hs
    have hne : ¬(opts.message = "" ∧ opts.schema = "") := fun h => hs h.2
    unfold on_step_run runTryBody
    rw [if_neg hne, if_neg hs]
    cases hsd : env.schemaDialog with
    | values vs => simp [hj, hsd]
    | raises e =>
        obtain ⟨ty, m⟩ := e
        cases ty <;> simp [hj, hsd]
  · intro hs hm
    have hne : ¬(opts.message = "" ∧ opts.schema = "") := fun h => hm h.1
    unfold on_step_run runTryBody
    rw [if_neg hne, if_pos hs]
    cases hc : env.messageDialog <;> simp [hc]

/-- Witness for `dialog_title`: at step index 0, schema mode with message
`"m"` yields title `"[Step 1] m"`, and message mode yields `"Step 1"`. -/
theorem dialog_title_witness :
    ((RunEnv.mk (fun _ => some (JsonValue.mk 0)) MessageDialogResult.accept
        (SchemaDialogResult.values [])).jsonLoads
          (StepOptions.mk "m" "\x7b\x7d").schema = some (JsonValue.mk 0) ∧
     (StepOptions.mk "m" "\x7b\x7d").schema ≠ "" ∧
     Event.schemaDialogRun
       (if (StepOptions.mk "m" "\x7b\x7d").message = "" then stepTitle 0
        else "[" ++ stepTitle 0 ++ "] " ++ (StepOptions.mk "m" "\x7b\x7d").message) ∈
       on_step_run "user_prompt_plugin" 0 (StepOptions.mk "m" "\x7b\x7d")
         (RunEnv.mk (fun _ => some (JsonValue.mk 0)) MessageDialogResult.accept
           (SchemaDialogResult.values []))) ∧
    ((StepOptions.mk "m" "").schema = "" ∧ (StepOptions.mk "m" "").message ≠ "" ∧
     Event.messageDialogRun (stepTitle 0) ∈
       on_step_run "user_prompt_plugin" 0 (StepOptions.mk "m" "")
         (RunEnv.mk (fun _ => none) MessageDialogResult.accept
           (SchemaDialogResult.values []))) :=
  ⟨⟨rfl, by decide,
    (dialog_title "user_prompt_plugin" 0 (StepOptions.mk "m" "\x7b\x7d")
        (RunEnv.mk (fun _ => some (JsonValue.mk 0)) MessageDialogResult.accept
          (SchemaDialogResult.values []))).1
      (JsonValue.mk 0) rfl (by decide)⟩,
   ⟨rfl, by decide,
    (dialog_title "user_prompt_plugin" 0 (StepOptions.mk "m" "")
        (RunEnv.mk (fun _ => none) MessageDialogResult.accept
          (SchemaDialogResult.values []))).2 rfl (by decide)⟩⟩

/-- C6: a confirmed options edit whose schema text is non-empty (after
stripping) and fails validation — `json.loads` fails, or
`get_fields_frame` raises — logs the failure exactly once at error level,
does not raise, and still writes the step options with `schema`
normalized to the empty string. -/
theorem edit_invalid_schema_normalized (env : EditEnv) (values : StepOptions)
    (hok : env.dialogResult = some values) (hne : pyStrip values.schema ≠ "")
    (hbad : env.jsonLoads values.schema = none ∨
      ∃ j e, env.jsonLoads values.schema = some j ∧
        env.getFieldsFrame j = Except.error e) :
    ∃ msg, on_step_options_menu__activate env =
      [Event.getStepOptions, Event.editDialogRun,
       Event.log LogLevel.error msg,
       Event.setStepValues { values with schema := "" }] := by
  unfold on_step_options_menu__activate
  rcases hbad with hj | ⟨j, e, hj, hf⟩
  · exact ⟨invalidSchemaMsg values.schema jsonDecodeError,
      by simp [hok, hne, hj]⟩
  · exact ⟨invalidSchemaMsg values.schema e, by simp [hok, hne, hj, hf]⟩

/-- Witness for `edit_invalid_schema_normalized`: a confirmed edit entering
the malformed schema `"\x7bnot json"`. -/
theorem edit_invalid_schema_normalized_witness :
    (EditEnv.mk (some (StepOptions.mk "hi" "\x7bnot json")) (fun _ => none)
        (fun _ => Except.ok ())).dialogResult =
      some (StepOptions.mk "hi" "\x7bnot json") ∧
    pyStrip (StepOptions.mk "hi" "\x7bnot json").schema ≠ "" ∧
    ∃ msg, on_step_options_menu__activate
        (EditEnv.mk (some (StepOptions.mk "hi" "\x7bnot json")) (fun _ => none)
          (fun _ => Except.ok ())) =
      [Event.getStepOptions, Event.editDialogRun,
       Event.log LogLevel.error msg,
       Event.setStepValues { StepOptions.mk "hi" "\x7bnot json" with schema := "" }] :=
  ⟨rfl, by decide,
   edit_invalid_schema_normalized
     (EditEnv.mk (some (StepOptions.mk "hi" "\x7bnot json")) (fun _ => none)
       (fun _ => Except.ok ()))
     (StepOptions.mk "hi" "\x7bnot json") rfl (by decide) (Or.inl rfl)⟩

/-- C8: the `step-prompt-accepted(values)` signal is fired iff the prompt
is accepted (with `values = {}` in message mode, per `promptAccepted`), and
when fired it precedes the successful `on_step_complete` emission of the
same invocation (the trace ends with the signal, the connected handler's
info log, then the emission); it is never fired on cancellation or fault. -/
theorem step_prompt_accepted_signal (p : String) (n : Nat)
    (opts : StepOptions) (env : RunEnv) (vs : Values) :
    (Event.stepPromptAccepted vs ∈ on_step_run p n opts env ↔
      promptAccepted opts env vs) ∧
    (promptAccepted opts env vs →
      ∃ t, on_step_run p n opts env =
        t ++ [Event.stepPromptAccepted vs,
              Event.log LogLevel.info "Step prompt accepted",
              Event.emitStepComplete p none]) := by
  by_cases hfast : opts.message = "" ∧ opts.schema = ""
  · have htrace : on_step_run p n opts env =
        [Event.log LogLevel.info
           ("[UserPromptPlugin] on_step_run(): step #" ++ toString n),
         Event.getStepOptions, Event.emitStepComplete p none] := by
      unfold on_step_run
      rw [if_pos hfast]
      rfl
    constructor
    · rw [htrace]
      simp [promptAccepted, hfast]
    · intro hacc
      exact absurd hfast hacc.1
  · by_cases hs : opts.schema = ""
    · have hm : opts.message ≠ "" := fun h => hfast ⟨h, hs⟩
      cases hc : env.messageDialog with
      | accept =>
          have htrace : on_step_run p n opts env =
              [Event.log LogLevel.info
                 ("[UserPromptPlugin] on_step_run(): step #" ++ toString n),
               Event.getStepOptions,
               Event.dialogCreated (stepTitle n),
               Event.messageDialogRun (stepTitle n),
               Event.stepPromptAccepted [],
               Event.log LogLevel.info "Step prompt accepted",
               Event.emitStepComplete p none] := by
            unfold on_step_run runTryBody
            simp [hm, hs, hc]
          constructor
          · rw [htrace]
            simp [promptAccepted, hm, hs, hc]
          · intro hacc
            have h2 := hacc.2
            rw [if_pos hs] at h2
            refine ⟨[Event.log LogLevel.info
                 ("[UserPromptPlugin] on_step_run(): step #" ++ toString n),
               Event.getStepOptions,
               Event.dialogCreated (stepTitle n),
               Event.messageDialogRun (stepTitle n)], ?_⟩
            rw [htrace, h2.2]
            rfl
      | other c =>
          have htrace : on_step_run p n opts env =
              [Event.log LogLevel.info
                 ("[UserPromptPlugin] on_step_run(): step #" ++ toString n),
               Event.getStepOptions,
               Event.dialogCreated (stepTitle n),
               Event.messageDialogRun (stepTitle n),
               Event.log LogLevel.warning "Protocol stopped.",
               Event.emitStepComplete p (some "Fail")] := by
            unfold on_step_run runTryBody
            simp [hm, hs, hc]
          constructor
          · rw [htrace]
            simp [promptAccepted, hs, hc]
          · intro hacc
            have h2 := hacc.2
            rw [if_pos hs, hc] at h2
            exact absurd h2.1 (by simp)
    · have hne : ¬(opts.message = "" ∧ opts.schema = "") := fun h => hs h.2
      cases hj : env.jsonLoads opts.schema with
      | none =>
          have htrace : on_step_run p n opts env =
              [Event.log LogLevel.info
                 ("[UserPromptPlugin] on_step_run(): step #" ++ toString n),
               Event.getStepOptions,
               Event.log LogLevel.warning "Protocol stopped.",
               Event.emitStepComplete p (some "Fail")] := by
            unfold on_step_run runTryBody
            simp [hne, hs, hj, jsonDecodeError]
          constructor
          · rw [htrace]
            simp [promptAccepted, hs, hj]
          · intro hacc
            have h2 := hacc.2
            rw [if_neg hs] at h2
            obtain ⟨⟨j, hj2⟩, -⟩ := h2
            rw [hj] at hj2
            cases hj2
      | some j =>
          cases hsd : env.schemaDialog with
          | values ws =>
              have htrace : on_step_run p n opts env =
                  [Event.log LogLevel.info
                     ("[UserPromptPlugin] on_step_run(): step #" ++ toString n),
                   Event.getStepOptions,
                   Event.schemaDialogRun
                     (if opts.message = "" then stepTitle n
                      else "[" ++ stepTitle n ++ "] " ++ opts.message),
                   Event.stepPromptAccepted ws,
                   Event.log LogLevel.info "Step prompt accepted",
                   Event.emitStepComplete p none] := by
                unfold on_step_run runTryBody
                simp [hne, hs, hj, hsd]
              constructor
              · rw [htrace]
                simp only [promptAccepted, if_neg hs, hj, hsd]
                simp [eq_comm]
                exact fun _ _ h => hs h.symm
              · intro hacc
                have h2 := hacc.2
                rw [if_neg hs, hsd] at h2
                have hws : ws = vs := by
                  have h3 := h2.2
                  injection h3
                subst hws
                refine ⟨[Event.log LogLevel.info
                     ("[UserPromptPlugin] on_step_run(): step #" ++ toString n),
                   Event.getStepOptions,
                   Event.schemaDialogRun
                     (if opts.message = "" then stepTitle n
                      else "[" ++ stepTitle n ++ "] " ++ opts.message)], ?_⟩
                rw [htrace]
                rfl
          | raises e =>
              obtain ⟨ty, m⟩ := e
              have hfalse : ∀ t : List Event,
                  (∀ o, Event.stepPromptAccepted o ∉ t) →
                  on_step_run p n opts env = t →
                  (Event.stepPromptAccepted vs ∈ on_step_run p n opts env ↔
                    promptAccepted opts env vs) ∧
                  (promptAccepted opts env vs →
                    ∃ t2, on_step_run p n opts env =
                      t2 ++ [Event.stepPromptAccepted vs,
                            Event.log LogLevel.info "Step prompt accepted",
                            Event.emitStepComplete p none]) := by
                intro t hno htr
                constructor
                · rw [htr]
                  constructor
                  · intro hmem
                    exact absurd hmem (hno vs)
                  · intro hacc
                    have h2 := hacc.2
                    rw [if_neg hs, hsd] at h2
                    exact absurd h2.2 (by simp)
                · intro hacc
                  have h2 := hacc.2
                  rw [if_neg hs, hsd] at h2
                  exact absurd h2.2 (by simp)
              cases ty
              · refine hfalse
                  [Event.log LogLevel.info
                     ("[UserPromptPlugin] on_step_run(): step #" ++ toString n),
                   Event.getStepOptions,
                   Event.schemaDialogRun
                     (if opts.message = "" then stepTitle n
                      else "[" ++ stepTitle n ++ "] " ++ opts.message),
                   Event.log LogLevel.warning "Protocol stopped.",
                   Event.emitStepComplete p (some "Fail")] (by intro o; simp) ?_
                unfold on_step_run runTryBody
                simp [hne, hs, hj, hsd]
              · refine hfalse
                  [Event.log LogLevel.info
                     ("[UserPromptPlugin] on_step_run(): step #" ++ toString n),
                   Event.getStepOptions,
                   Event.schemaDialogRun
                     (if opts.message = "" then stepTitle n
                      else "[" ++ stepTitle n ++ "] " ++ opts.message),
                   Event.log LogLevel.error "Protocol stopped.",
                   Event.emitStepComplete p (some "Fail")] (by intro o; simp) ?_
                unfold on_step_run runTryBody
                simp [hne, hs, hj, hsd]

/-- Witness for `step_prompt_accepted_signal`: a message-mode prompt that
the user accepts fires `step-prompt-accepted({})` followed by the
successful emission. -/
theorem step_prompt_accepted_signal_witness :
    ∃ t, on_step_run "user_prompt_plugin" 0 (StepOptions.mk "m" "")
        (RunEnv.mk (fun _ => none) MessageDialogResult.accept
          (SchemaDialogResult.values [])) =
      t ++ [Event.stepPromptAccepted [],
            Event.log LogLevel.info "Step prompt accepted",
            Event.emitStepComplete "user_prompt_plugin" none] := by
  have hacc : promptAccepted (StepOptions.mk "m" "")
      (RunEnv.mk (fun _ => none) MessageDialogResult.accept
        (SchemaDialogResult.values [])) [] := by
    unfold promptAccepted
    simp
  exact (step_prompt_accepted_signal "user_prompt_plugin" 0
    (StepOptions.mk "m" "")
    (RunEnv.mk (fun _ => none) MessageDialogResult.accept
      (SchemaDialogResult.values [])) []).2 hacc

/-- C10: a confirmed options edit whose schema text is non-empty but
all-whitespace skips edit-time validation (only schemas with non-empty
stripped text are validated) and persists the whitespace string as-is; a
subsequent `on_step_run` over the persisted record then takes the
schema-present branch (the string is truthy), its `json.loads` fails, and
the step is reported as `'Fail'` — not the no-schema fast path. -/
theorem whitespace_schema_persists_then_fails (eenv : EditEnv)
    (v : StepOptions) (renv : RunEnv) (p : String) (n : Nat)
    (hok : eenv.dialogResult = some v) (hws : pyStrip v.schema = "")
    (hne : v.schema ≠ "") (hj : renv.jsonLoads v.schema = none) :
    on_step_options_menu__activate eenv =
      [Event.getStepOptions, Event.editDialogRun, Event.setStepValues v] ∧
    on_step_run p n v renv =
      [Event.log LogLevel.info
         ("[UserPromptPlugin] on_step_run(): step #" ++ toString n),
       Event.getStepOptions,
       Event.log LogLevel.warning "Protocol stopped.",
       Event.emitStepComplete p (some "Fail")] := by
  constructor
  · unfold on_step_options_menu__activate
    simp [hok, hws]
  · have hne2 : ¬(v.message = "" ∧ v.schema = "") := fun h => hne h.2
    unfold on_step_run runTryBody
    simp [hne2, hne, hj, jsonDecodeError]

/-- Witness for `whitespace_schema_persists_then_fails`: schema `" "`
(a single space). -/
theorem whitespace_schema_persists_then_fails_witness :
    (EditEnv.mk (some (StepOptions.mk "" " ")) (fun _ => none)
        (fun _ => Except.ok ())).dialogResult = some (StepOptions.mk "" " ") ∧
    pyStrip (StepOptions.mk "" " ").schema = "" ∧
    (StepOptions.mk "" " ").schema ≠ "" ∧
    (on_step_options_menu__activate
        (EditEnv.mk (some (StepOptions.mk "" " ")) (fun _ => none)
          (fun _ => Except.ok ())) =
      [Event.getStepOptions, Event.editDialogRun,
       Event.setStepValues (StepOptions.mk "" " ")] ∧
     on_step_run "user_prompt_plugin" 0 (StepOptions.mk "" " ")
        (RunEnv.mk (fun _ => none) MessageDialogResult.accept
          (SchemaDialogResult.values [])) =
      [Event.log LogLevel.info "[UserPromptPlugin] on_step_run(): step #0",
       Event.getStepOptions,
       Event.log LogLevel.warning "Protocol stopped.",
       Event.emitStepComplete "user_prompt_plugin" (some "Fail")]) :=
  ⟨rfl, by decide, by decide,
   whitespace_schema_persists_then_fails
     (EditEnv.mk (some (StepOptions.mk "" " ")) (fun _ => none)
       (fun _ => Except.ok ()))
     (StepOptions.mk "" " ")
     (RunEnv.mk (fun _ => none) MessageDialogResult.accept
       (SchemaDialogResult.values []))
     "user_prompt_plugin" 0 rfl (by decide) (by decide) rfl⟩

end UserPromptPlugin
